import Mathlib

/-!
Shallow embedding of the video-editor backend (`main.py`, `schemas.py`).

The repository is a FastAPI backend with two interesting operations:

* `upload_asset` (main.py lines 120-182): classifies an upload by its
  content type, saves the file, best-effort probes video metadata, and
  persists an `asset` document.
* `render_video` (main.py lines 196-283): resolves an asset, applies the
  transform chain trim -> speed -> rotate -> volume -> resize via moviepy,
  writes the output file, and persists a `render` document.

Python floats are modelled as `ℚ` (the trim/clamp logic uses only order
and equality, which are exact), machine-side collaborators (filesystem,
moviepy decoder/encoder, timestamps) are oracles carried in an
environment record, and every transform-chain call the handler makes is
recorded symbolically as a `Transform` so that theorems can speak about
which operations were applied with which arguments.  HTTP errors are
modelled as a status code plus detail string, exactly the
`HTTPException(status_code=..., detail=...)` values raised by the code;
an uncaught exception inside the `try` block of `render_video` is the
`status 500, "Render failed: ..."` branch (main.py line 283).
-/

namespace VideoEditor

/-- An `asset` document as `render_video` reads it: the stringified `_id`,
the `project_id` field, and the stored `path` (`asset_doc.get("path")`
may be absent, hence `Option`). -/
structure Asset where
  id : String
  project_id : String
  path : Option String
deriving DecidableEq

/-- What `VideoFileClip(source_path)` exposes to the render handler: the
source duration (`clip.duration`) and whether the clip carries an audio
track (`subclip.audio is not None`). -/
structure SourceClip where
  duration : ℚ
  hasAudio : Bool
deriving DecidableEq

/-- The `RenderRequest` pydantic model (main.py lines 65-74), with the
same defaults.  `end` is a Lean keyword, so the field is `end_`. -/
structure RenderRequest where
  project_id : String
  asset_id : String
  start : ℚ := 0
  end_ : Option ℚ := none
  speed : ℚ := 1
  volume : ℚ := 1
  rotate : Int := 0
  resolution_width : Option Int := none
  resolution_height : Option Int := none
deriving DecidableEq

/-- An `HTTPException(status_code, detail)` value. -/
structure HttpError where
  status : Nat
  detail : String
deriving DecidableEq

/-- One call of the moviepy transform chain, recorded symbolically with
the exact arguments the handler passes. -/
inductive Transform where
  | subclip (s e : ℚ)
  | speedx (f : ℚ)
  | rotate (deg : Int)
  | volumex (v : ℚ)
  | resize (w h : Int)
deriving DecidableEq

/-- The `render` document persisted by `create_document("render", ...)`
(main.py lines 266-278), which is also the success response body. -/
structure RenderDoc where
  project_id : String
  asset_id : String
  start : ℚ
  end_ : ℚ
  speed : ℚ
  volume : ℚ
  rotate : Int
  resolution_width : Option Int
  resolution_height : Option Int
  status : String
  output_url : String
deriving DecidableEq

/-- External collaborators of `render_video`: whether the moviepy import
succeeded, the `asset` collection, `os.path.exists`, opening the source
clip (`none` models `VideoFileClip` raising), whether every engine call
through `write_videofile` succeeds on a given transform chain, the
exception text when it does not, and the request base url / generated
output file name. -/
structure Env where
  videoBackendAvailable : Bool
  assets : List Asset
  fsExists : String → Bool
  openClip : String → Option SourceClip
  encodeOk : List Transform → Bool
  engineMsg : String
  baseUrl : String
  outName : String

/-- Observable outcome of one `render_video` call: the HTTP response, the
`render` documents inserted into the Metadata Store during the call, the
transform chain handed to the engine (empty when never built), and
whether `write_videofile` ran to completion. -/
structure RenderOutcome where
  response : Except HttpError RenderDoc
  createdRenders : List RenderDoc
  transforms : List Transform
  wroteOutput : Bool

/-- Python truthiness of `x or d` on a float: `0.0` is falsy. -/
def pyOrQ (x d : ℚ) : ℚ := if x = 0 then d else x

/-- Python truthiness of `x or d` on an int: `0` is falsy. -/
def pyOrInt (x d : Int) : Int := if x = 0 then d else x

/-- Python truthiness of an `Optional[int]`: `None` and `0` are falsy. -/
def pyTruthyOptInt (o : Option Int) : Bool := o.getD 0 != 0

/-- Line 225: `start = max(0.0, float(payload.start or 0.0))`. -/
def resolvedStart (p : RenderRequest) : ℚ := max 0 (pyOrQ p.start 0)

/-- Lines 226-227: `end = float(payload.end) if payload.end else
clip.duration; end = min(end, clip.duration)`.  Note `payload.end` is
falsy both when it is `None` and when it is `0.0`. -/
def resolvedEnd (p : RenderRequest) (duration : ℚ) : ℚ :=
  min (match p.end_ with
        | some v => if v = 0 then duration else v
        | none => duration)
    duration

/-- Line 235-236: `rotate_map = {0: 0, 90: 90, 180: 180, 270: 270};
r = rotate_map.get(..., 0)`. -/
def rotateMapGet (r : Int) : Int :=
  if r = 0 ∨ r = 90 ∨ r = 180 ∨ r = 270 then r else 0

/-- The transform calls of main.py lines 224-242 (trim, speed, rotate,
volume), i.e. the chain up to but not including the resize step.  The
audio-presence test on line 241 reads the (speed/rotate-preserved) audio
track of the subclip, which is the source clip's. -/
def preResizeTransforms (p : RenderRequest) (clip : SourceClip) : List Transform :=
  let t1 : List Transform := [Transform.subclip (resolvedStart p) (resolvedEnd p clip.duration)]
  let t2 := if p.speed ≠ 0 ∧ p.speed ≠ 1 then t1 ++ [Transform.speedx p.speed] else t1
  let r := rotateMapGet (pyOrInt p.rotate 0)
  let t3 := if r ≠ 0 then t2 ++ [Transform.rotate r] else t2
  if clip.hasAudio then t3 ++ [Transform.volumex (max 0 p.volume)] else t3

/-- The full transform chain built by main.py lines 224-246 on a
successfully opened source clip, recorded as the list of moviepy calls
made.  Line 245 `if payload.resolution_width and payload.resolution_height`
uses Python truthiness, so `None` and `0` both skip the resize. -/
def buildTransforms (p : RenderRequest) (clip : SourceClip) : List Transform :=
  if pyTruthyOptInt p.resolution_width && pyTruthyOptInt p.resolution_height then
    preResizeTransforms p clip ++
      [Transform.resize (p.resolution_width.getD 0) (p.resolution_height.getD 0)]
  else preResizeTransforms p clip

/-- Asset resolution, main.py lines 202-213.  The first query filters the
collection by `{"_id": {"$exists": True}, "project_id": payload.project_id}`
(the `_id` clause is vacuous: every document has an id) and scans for a
matching stringified `_id`; the fallback on lines 210-213 issues the query
`{"project_id": payload.project_id}` — still scoped to the project — and
scans identically. -/
def lookupAsset (db : List Asset) (pid aid : String) : Option Asset :=
  match (db.filter (fun d => d.project_id == pid)).find? (fun d => d.id == aid) with
  | some a => some a
  | none => (db.filter (fun d => d.project_id == pid)).find? (fun d => d.id == aid)

/-- The `render_video` handler, main.py lines 196-283. -/
def render_video (env : Env) (p : RenderRequest) : RenderOutcome :=
  if env.videoBackendAvailable = false then
    { response := .error ⟨500, "Video processing backend not available"⟩,
      createdRenders := [], transforms := [], wroteOutput := false }
  else
    match lookupAsset env.assets p.project_id p.asset_id with
    | none =>
      { response := .error ⟨404, "Asset not found"⟩,
        createdRenders := [], transforms := [], wroteOutput := false }
    | some asset =>
      -- line 218: `if not source_path or not os.path.exists(source_path)`
      if asset.path.getD "" = "" ∨ env.fsExists (asset.path.getD "") = false then
        { response := .error ⟨404, "Source file not found on server"⟩,
          createdRenders := [], transforms := [], wroteOutput := false }
      else
        match env.openClip (asset.path.getD "") with
        | none =>
          { response := .error ⟨500, "Render failed: " ++ env.engineMsg⟩,
            createdRenders := [], transforms := [], wroteOutput := false }
        | some clip =>
          let ts := buildTransforms p clip
          if env.encodeOk ts then
            let doc : RenderDoc :=
              { project_id := p.project_id, asset_id := p.asset_id,
                start := resolvedStart p, end_ := resolvedEnd p clip.duration,
                speed := p.speed, volume := p.volume, rotate := p.rotate,
                resolution_width := p.resolution_width,
                resolution_height := p.resolution_height,
                status := "completed",
                output_url := env.baseUrl ++ "/static/outputs/" ++ env.outName }
            { response := .ok doc, createdRenders := [doc],
              transforms := ts, wroteOutput := true }
          else
            { response := .error ⟨500, "Render failed: " ++ env.engineMsg⟩,
              createdRenders := [], transforms := ts, wroteOutput := false }

/-- What a successful `VideoFileClip(save_path)` probe exposes during
ingestion (main.py lines 144-155): `clip.duration` (possibly `None`),
`clip.w`, `clip.h`. -/
structure ProbeInfo where
  duration : Option ℚ
  width : Int
  height : Int
deriving DecidableEq

/-- External collaborators of `upload_asset`: whether the moviepy import
succeeded, the metadata probe on the saved file (`none` models any
exception inside the `try` of lines 145-157), the
`datetime.utcnow().strftime(...)` token, and the request base url. -/
structure UploadEnv where
  videoFileClipAvailable : Bool
  probe : String → Option ProbeInfo
  timestamp : String
  baseUrl : String

/-- The `asset` document persisted by `create_document("asset", ...)`
(main.py lines 161-171), also the shape of the success response. -/
structure AssetDoc where
  project_id : String
  filename : String
  path : String
  url : String
  kind : String
  duration : Option ℚ
  width : Option Int
  height : Option Int
deriving DecidableEq

/-- Observable outcome of one `upload_asset` call: the HTTP response and
the `asset` documents inserted during the call. -/
structure UploadOutcome where
  response : Except HttpError AssetDoc
  createdAssets : List AssetDoc

/-- Python's `s.startswith(pre)`, as prefix-of on the character lists. -/
def pyStartsWith (s pre : String) : Bool := pre.data.isPrefixOf s.data

/-- Content-type classification, main.py lines 125-129: nested
`startswith` tests on the declared content type. -/
def classifyKind (ct : String) : String :=
  if pyStartsWith ct "video/" then "video"
  else if pyStartsWith ct "audio/" then "audio"
  else if pyStartsWith ct "image/" then "image"
  else "other"

/-- Line 134-135: `save_path = os.path.join(UPLOAD_DIR, f"{ts}_{file.filename}")`
with `UPLOAD_DIR = os.path.join("static", "uploads")`. -/
def uploadSavePath (env : UploadEnv) (origFilename : String) : String :=
  "static/uploads/" ++ env.timestamp ++ "_" ++ origFilename

/-- The `upload_asset` handler, main.py lines 120-182.  `content_type` is
`file.content_type`, which FastAPI may leave absent (`None`). -/
def upload_asset (env : UploadEnv) (project_id : String)
    (content_type : Option String) (origFilename : String) : UploadOutcome :=
  match content_type with
  | none =>
    { response := .error ⟨400, "Unsupported file type"⟩, createdAssets := [] }
  | some ct =>
    let kind := classifyKind ct
    if kind = "other" then
      { response := .error ⟨400, "Only video/audio/image files are supported"⟩,
        createdAssets := [] }
    else
      let save_path := uploadSavePath env origFilename
      -- lines 140-157: duration/width/height stay None unless the clip is a
      -- video, moviepy imported, and the probe does not raise; a falsy
      -- (zero/None) `clip.duration` is also collapsed to None.
      let probed : Option ℚ × Option Int × Option Int :=
        if kind = "video" ∧ env.videoFileClipAvailable = true then
          match env.probe save_path with
          | some info =>
            (match info.duration with
             | some d => if d == 0 then none else some d
             | none => none,
             some info.width, some info.height)
          | none => (none, none, none)
        else (none, none, none)
      let doc : AssetDoc :=
        { project_id := project_id, filename := origFilename, path := save_path,
          url := env.baseUrl ++ "/static/uploads/" ++ env.timestamp ++ "_" ++ origFilename,
          kind := kind, duration := probed.1, width := probed.2.1,
          height := probed.2.2 }
      { response := .ok doc, createdAssets := [doc] }

/-! ### Concrete scenarios used by counterexamples and witnesses -/

/-- A generic source clip of duration 10 seconds without audio. -/
def clip10 : SourceClip := { duration := 10, hasAudio := false }

/-- A stored asset `a1` belonging to project `p1` whose file exists. -/
def asset1 : Asset := { id := "a1", project_id := "p1", path := some "src.mp4" }

/-- Environment whose encoder raises; used to exhibit the 500 path. -/
def c1Env : Env :=
  { videoBackendAvailable := true, assets := [asset1],
    fsExists := fun s => s == "src.mp4", openClip := fun _ => some clip10,
    encodeOk := fun _ => false, engineMsg := "encoder error",
    baseUrl := "http://h", outName := "o.mp4" }

/-- A request whose clamped trim bounds are degenerate: start 5, end 3. -/
def c1Req : RenderRequest :=
  { project_id := "p1", asset_id := "a1", start := 5, end_ := some 3 }

/-- Environment holding only `asset1` (project `p1`), fully permissive
engine; used to probe the cross-project lookup. -/
def c2Env : Env :=
  { videoBackendAvailable := true, assets := [asset1],
    fsExists := fun _ => true, openClip := fun _ => some clip10,
    encodeOk := fun _ => true, engineMsg := "",
    baseUrl := "http://h", outName := "o.mp4" }

/-- A request for `asset1` under the wrong project id `p2`. -/
def c2Req : RenderRequest := { project_id := "p2", asset_id := "a1" }

/-- A request whose start (20) exceeds the 10-second source duration. -/
def c5Req : RenderRequest :=
  { project_id := "p1", asset_id := "a1", start := 20 }

/-- A request with `end` explicitly set to `0.0`. -/
def c10Req : RenderRequest :=
  { project_id := "p1", asset_id := "a1", start := 1, end_ := some 0 }

/-! ### Claim C1 -/

/-- Claim C1, as stated, is false: in the recorded scenario the resolved
trim bounds satisfy `end ≤ start` after clamping (start 5, end 3 on a
10-second source), yet `render_video` does not reject with a
4xx-equivalent `ValidationError`; the engine failure on the degenerate
subclip surfaces as the 5xx-equivalent `"Render failed: ..."` error. -/
theorem c1_validation_counterexample :
    c1Env.openClip "src.mp4" = some clip10
      ∧ resolvedEnd c1Req clip10.duration ≤ resolvedStart c1Req
      ∧ (render_video c1Env c1Req).response
          = .error { status := 500, detail := "Render failed: encoder error" } :=
  ⟨rfl, by decide, rfl⟩

/-- Claim C1 amended: `render_video` performs no validation of the trim
bounds at all.  Every error it can surface has status 404 (missing asset
or missing source file) or 500 (missing backend, or an engine failure —
including whatever the engine does on a degenerate `end ≤ start`
subclip); no 400-status `ValidationError` exists on any path. -/
theorem c1_no_validation_error (env : Env) (p : RenderRequest) :
    ∀ err, (render_video env p).response = Except.error err →
      err.status = 404 ∨ err.status = 500 := by
  intro err
  simp only [render_video]
  split
  · intro h
    simp only [Except.error.injEq] at h
    exact Or.inr (by rw [← h])
  · split
    · intro h
      simp only [Except.error.injEq] at h
      exact Or.inl (by rw [← h])
    · split
      · intro h
        simp only [Except.error.injEq] at h
        exact Or.inl (by rw [← h])
      · split
        · intro h
          simp only [Except.error.injEq] at h
          exact Or.inr (by rw [← h])
        · split
          · intro h
            exact absurd h (by simp)
          · intro h
            simp only [Except.error.injEq] at h
            exact Or.inr (by rw [← h])

/-- Witness for `c1_no_validation_error` at the concrete degenerate-trim
scenario: the surfaced error there has status 500. -/
theorem c1_no_validation_error_witness :
    (HttpError.mk 500 "Render failed: encoder error").status = 404
      ∨ (HttpError.mk 500 "Render failed: encoder error").status = 500 :=
  c1_no_validation_error c1Env c1Req
    { status := 500, detail := "Render failed: encoder error" } rfl

/-! ### Claim C2 -/

/-- Claim C2, as stated, is false: the store holds `asset1` with id `a1`
under project `p1`, and the request names `assetId = "a1"` with the
mismatched `projectId = "p2"`; no unscoped fallback exists, so the asset
does not resolve and the render fails with 404 "Asset not found". -/
theorem c2_cross_project_counterexample :
    c2Env.assets = [asset1] ∧ asset1.id = "a1" ∧ asset1.project_id = "p1"
      ∧ c2Req.asset_id = "a1" ∧ c2Req.project_id = "p2"
      ∧ (render_video c2Env c2Req).response
          = .error { status := 404, detail := "Asset not found" } :=
  ⟨rfl, rfl, rfl, rfl, rfl, rfl⟩

/-- Claim C2 amended: both the primary lookup and the fallback lookup
are scoped to the request's `projectId` (the fallback merely repeats the
scoped query without the vacuous `_id`-exists clause), so asset
resolution never crosses project boundaries: any asset it returns
matches both the requested project id and asset id. -/
theorem c2_lookup_scoped (db : List Asset) (pid aid : String) :
    lookupAsset db pid aid
        = (db.filter (fun d => d.project_id == pid)).find? (fun d => d.id == aid)
      ∧ ∀ a, lookupAsset db pid aid = some a → a.project_id = pid ∧ a.id = aid := by
  have h1 : lookupAsset db pid aid
      = (db.filter (fun d => d.project_id == pid)).find? (fun d => d.id == aid) := by
    unfold lookupAsset
    cases h : (db.filter (fun d => d.project_id == pid)).find? (fun d => d.id == aid) <;>
      simp [h]
  refine ⟨h1, fun a ha => ?_⟩
  rw [h1] at ha
  have hmem := List.mem_of_find?_eq_some ha
  have hpred := List.find?_some ha
  rw [List.mem_filter] at hmem
  exact ⟨by simpa using hmem.2, by simpa using hpred⟩

/-- Witness for `c2_lookup_scoped`: with the store holding only `asset1`
(project `p1`), resolving `("p1", "a1")` returns an asset matching both
requested ids. -/
theorem c2_lookup_scoped_witness :
    asset1.project_id = "p1" ∧ asset1.id = "a1" :=
  (c2_lookup_scoped [asset1] "p1" "a1").2 asset1 rfl

/-! ### Claim C5 -/

/-- Claim C5, as stated, is false: `start` is not clamped into
`[0, sourceDuration]`.  With a 10-second source and `start = 20`, the
resolved start stays 20 (it is not reduced to 10), and the trim call
handed to the engine is `subclip 20 10`. -/
theorem c5_start_not_clamped_counterexample :
    c1Env.openClip "src.mp4" = some clip10 ∧ clip10.duration = 10
      ∧ resolvedStart c5Req = 20 ∧ ¬ resolvedStart c5Req ≤ clip10.duration
      ∧ (render_video c1Env c5Req).transforms = [Transform.subclip 20 10] :=
  ⟨rfl, rfl, by decide, by decide, rfl⟩

/-- Claim C5 amended: the trim step clamps `start` from below only
(`max(0.0, start)` — a negative start becomes 0, but a start above the
source duration is passed through unchanged), defaults `end` to the
source duration when unset, and clamps `end` to at most the source
duration. -/
theorem c5_trim_clamping (p : RenderRequest) (d : ℚ) :
    resolvedStart p = max 0 p.start
      ∧ resolvedEnd p d ≤ d
      ∧ (p.end_ = none → resolvedEnd p d = d) := by
  refine ⟨?_, min_le_right _ _, fun h => ?_⟩
  · unfold resolvedStart pyOrQ
    by_cases h : p.start = 0 <;> simp [h]
  · unfold resolvedEnd
    rw [h]
    exact min_self d

/-- Witness for `c5_trim_clamping` at the concrete request with
`start = 20` and `end` unset, against a 10-second source. -/
theorem c5_trim_clamping_witness :
    resolvedStart c5Req = max 0 c5Req.start
      ∧ resolvedEnd c5Req 10 ≤ 10 ∧ resolvedEnd c5Req 10 = 10 :=
  ⟨(c5_trim_clamping c5Req 10).1, (c5_trim_clamping c5Req 10).2.1,
    (c5_trim_clamping c5Req 10).2.2 rfl⟩

/-! ### Claim C10 -/

/-- Claim C10 confirmed: an explicit `end = 0.0` is falsy in Python, so
line 226 treats it exactly like an absent `end`: the resolved end is the
full source duration. -/
theorem c10_end_zero_as_unset (p : RenderRequest) (d : ℚ) :
    p.end_ = some 0 →
      resolvedEnd p d = resolvedEnd { p with end_ := none } d
        ∧ resolvedEnd p d = d := by
  intro h
  unfold resolvedEnd
  rw [h]
  simp

/-- Witness for `c10_end_zero_as_unset` at the concrete request with
`end = 0.0` against a 10-second source. -/
theorem c10_end_zero_as_unset_witness :
    resolvedEnd c10Req 10 = resolvedEnd { c10Req with end_ := none } 10
      ∧ resolvedEnd c10Req 10 = 10 :=
  c10_end_zero_as_unset c10Req 10 rfl

/-! ### Claims C3 and C6 -/

/-- Environment whose asset collection is empty: every lookup misses. -/
def c3Env : Env :=
  { videoBackendAvailable := true, assets := [],
    fsExists := fun _ => false, openClip := fun _ => none,
    encodeOk := fun _ => false, engineMsg := "",
    baseUrl := "", outName := "" }

/-- A render request naming an asset that does not exist. -/
def c3Req : RenderRequest := { project_id := "p1", asset_id := "missing" }

/-- Claim C3 confirmed: `create_document("render", ...)` runs only after
`write_videofile` returned (main.py lines 253, 279), and every created
record has status `"completed"` and is the success response; on every
error path — 404s before the `try`, backend unavailable, or any engine
exception mapped to the 500 handler — no render document is created. -/
theorem c3_record_only_after_write (env : Env) (p : RenderRequest) :
    ((render_video env p).createdRenders ≠ [] →
      (render_video env p).wroteOutput = true
        ∧ (render_video env p).createdRenders.map RenderDoc.status = ["completed"]
        ∧ (render_video env p).response.toOption = (render_video env p).createdRenders.head?)
  ∧ ∀ err, (render_video env p).response = Except.error err →
      (render_video env p).createdRenders = [] := by
  simp only [render_video]
  split
  · simp
  · split
    · simp
    · split
      · simp
      · split
        · simp
        · split
          · simp [Except.toOption]
          · simp

/-- Witness for `c3_record_only_after_write`: the failed render against
the empty store creates no render record. -/
theorem c3_record_only_after_write_witness :
    (render_video c3Env c3Req).createdRenders = [] :=
  (c3_record_only_after_write c3Env c3Req).2
    { status := 404, detail := "Asset not found" } rfl

/-- Environment for the missing-asset witness of claim C6. -/
def c6Env : Env :=
  { videoBackendAvailable := true, assets := [],
    fsExists := fun _ => false, openClip := fun _ => none,
    encodeOk := fun _ => false, engineMsg := "",
    baseUrl := "", outName := "" }

/-- A render request naming an asset absent from `c6Env`. -/
def c6Req : RenderRequest := { project_id := "p1", asset_id := "a1" }

/-- Claim C6 confirmed: with the video backend importable, a failed
lookup yields the 404 "Asset not found" error, and a resolved asset
whose stored path is falsy or does not exist on disk yields the 404
"Source file not found on server" error; in both cases no render
document is persisted. -/
theorem c6_notfound_no_record (env : Env) (p : RenderRequest)
    (hb : env.videoBackendAvailable = true) :
    (lookupAsset env.assets p.project_id p.asset_id = none →
      (render_video env p).response
          = .error { status := 404, detail := "Asset not found" }
        ∧ (render_video env p).createdRenders = [])
  ∧ ∀ a, lookupAsset env.assets p.project_id p.asset_id = some a →
      (a.path.getD "" = "" ∨ env.fsExists (a.path.getD "") = false) →
      (render_video env p).response
          = .error { status := 404, detail := "Source file not found on server" }
        ∧ (render_video env p).createdRenders = [] := by
  constructor
  · intro hl
    simp [render_video, hb, hl]
  · intro a ha hpath
    simp only [render_video, hb]
    simp only [ha]
    rw [if_neg (by simp)]
    rw [if_pos hpath]
    exact ⟨rfl, rfl⟩

/-- Witness for `c6_notfound_no_record`: the concrete request against
the empty store gets the 404 and leaves the store unchanged. -/
theorem c6_notfound_no_record_witness :
    (render_video c6Env c6Req).response
        = .error { status := 404, detail := "Asset not found" }
      ∧ (render_video c6Env c6Req).createdRenders = [] :=
  (c6_notfound_no_record c6Env c6Req rfl).1 rfl

/-! ### Claim C4 -/

/-- Environment with `asset1` present and a fully successful engine. -/
def c4Env : Env :=
  { videoBackendAvailable := true, assets := [asset1],
    fsExists := fun s => s == "src.mp4", openClip := fun _ => some clip10,
    encodeOk := fun _ => true, engineMsg := "",
    baseUrl := "http://h", outName := "o.mp4" }

/-- A request supplying `resolutionWidth` but not `resolutionHeight`. -/
def c4Req : RenderRequest :=
  { project_id := "p1", asset_id := "a1", resolution_width := some 640 }

/-- The render document the code persists for `c4Req` in `c4Env`. -/
def c4Doc : RenderDoc :=
  { project_id := "p1", asset_id := "a1", start := 0, end_ := 10,
    speed := 1, volume := 1, rotate := 0, resolution_width := some 640,
    resolution_height := none, status := "completed",
    output_url := "http://h/static/outputs/o.mp4" }

/-- A resize transform never occurs in the pre-resize chain. -/
theorem resize_not_mem_preResize (p : RenderRequest) (clip : SourceClip)
    (w h : Int) : Transform.resize w h ∉ preResizeTransforms p clip := by
  unfold preResizeTransforms
  repeat' split
  all_goals simp
  all_goals (split <;> simp)

/-- Claim C4, as stated, is false on its first half: a request supplying
`resolutionWidth = 640` and no `resolutionHeight` is not rejected with a
`ValidationError` — the render succeeds, persists a completed record,
and simply never calls resize (the transform chain is the bare trim). -/
theorem c4_single_resolution_counterexample :
    c4Req.resolution_width = some 640 ∧ c4Req.resolution_height = none
      ∧ (render_video c4Env c4Req).response = .ok c4Doc
      ∧ (render_video c4Env c4Req).transforms = [Transform.subclip 0 10] :=
  ⟨rfl, rfl, rfl, rfl⟩

/-- Claim C4 amended: when either resolution field is falsy (absent or
zero) the resize step is silently skipped — no resize call is made and
no error is raised; when both are supplied and nonzero, the chain ends
with a resize to exactly that width-height pair. -/
theorem c4_resize_rule (p : RenderRequest) (clip : SourceClip) :
    ((pyTruthyOptInt p.resolution_width = false
        ∨ pyTruthyOptInt p.resolution_height = false) →
      ∀ w h, Transform.resize w h ∉ buildTransforms p clip)
  ∧ ∀ w h, p.resolution_width = some w → p.resolution_height = some h →
      w ≠ 0 → h ≠ 0 →
      buildTransforms p clip
        = preResizeTransforms p clip ++ [Transform.resize w h] := by
  constructor
  · intro hfalse w h
    have hc : (pyTruthyOptInt p.resolution_width
        && pyTruthyOptInt p.resolution_height) = false := by
      rcases hfalse with h1 | h1 <;> simp [h1]
    unfold buildTransforms
    rw [hc]
    simp only [Bool.false_eq_true, if_false]
    exact resize_not_mem_preResize p clip w h
  · intro w h hw hh hw0 hh0
    unfold buildTransforms
    rw [hw, hh]
    simp [pyTruthyOptInt, hw0, hh0]

/-- A request supplying both resolution fields, for the C4 witness. -/
def c4wReq : RenderRequest :=
  { project_id := "p1", asset_id := "a1",
    resolution_width := some 640, resolution_height := some 360 }

/-- Witness for `c4_resize_rule`: with both fields supplied the chain
ends with `resize 640 360`. -/
theorem c4_resize_rule_witness :
    buildTransforms c4wReq clip10
      = preResizeTransforms c4wReq clip10 ++ [Transform.resize 640 360] :=
  (c4_resize_rule c4wReq clip10).2 640 360 rfl rfl (by decide) (by decide)

/-! ### Claim C7 -/

/-- A request with the meaningless rotation value 45. -/
def c7Req : RenderRequest :=
  { project_id := "p1", asset_id := "a1", rotate := 45 }

/-- Claim C7 confirmed: a rotate value outside `{0, 90, 180, 270}` makes
the transform chain identical to the chain for `rotate = 0` (the
`rotate_map.get(..., 0)` default), with no error raised; a rotate value
in `{90, 180, 270}` puts the corresponding rotate call in the chain. -/
theorem c7_rotate_leniency (p : RenderRequest) (clip : SourceClip) :
    (¬ (p.rotate = 0 ∨ p.rotate = 90 ∨ p.rotate = 180 ∨ p.rotate = 270) →
      buildTransforms p clip = buildTransforms { p with rotate := 0 } clip)
  ∧ ((p.rotate = 90 ∨ p.rotate = 180 ∨ p.rotate = 270) →
      Transform.rotate p.rotate ∈ buildTransforms p clip) := by
  constructor
  · intro h
    have h0 : p.rotate ≠ 0 := fun e => h (Or.inl e)
    have hr : rotateMapGet (pyOrInt p.rotate 0) = 0 := by
      unfold pyOrInt rotateMapGet
      rw [if_neg h0, if_neg h]
    have hr0 : rotateMapGet (pyOrInt (0 : Int) 0) = 0 := by decide
    simp [buildTransforms, preResizeTransforms, hr, hr0, resolvedStart,
      resolvedEnd, pyOrQ, pyTruthyOptInt]
  · intro h
    have h0 : p.rotate ≠ 0 := by rcases h with h | h | h <;> simp [h]
    have hr : rotateMapGet (pyOrInt p.rotate 0) = p.rotate := by
      unfold pyOrInt rotateMapGet
      rw [if_neg h0, if_pos (Or.inr h)]
    have hpre : Transform.rotate p.rotate ∈ preResizeTransforms p clip := by
      simp only [preResizeTransforms, hr]
      rw [if_pos h0]
      split_ifs <;> simp
    unfold buildTransforms
    split
    · exact List.mem_append_left _ hpre
    · exact hpre

/-- Witness for `c7_rotate_leniency`: `rotate = 45` builds the same
chain as `rotate = 0`. -/
theorem c7_rotate_leniency_witness :
    buildTransforms c7Req clip10
      = buildTransforms { c7Req with rotate := 0 } clip10 :=
  (c7_rotate_leniency c7Req clip10).1 (by decide)

/-! ### Claims C8 and C9 -/

/-- A plain upload environment with an always-failing metadata probe. -/
def c8Env : UploadEnv :=
  { videoFileClipAvailable := true, probe := fun _ => none,
    timestamp := "t", baseUrl := "http://h" }

/-- Claim C8 confirmed: an absent content type is rejected with status
400 ("Unsupported file type"), a content type classified to `other` is
rejected with status 400 ("Only video/audio/image files are supported"),
in both cases without creating an asset document; the classification
follows the `video/`, `audio/`, `image/` startswith tests in that order,
and every accepted upload persists exactly one asset document carrying
the classified kind, which is also the response's kind. -/
theorem c8_upload_kind (env : UploadEnv) (pid fname : String) :
    ((upload_asset env pid none fname).response
        = .error { status := 400, detail := "Unsupported file type" }
      ∧ (upload_asset env pid none fname).createdAssets = [])
  ∧ (∀ ct, classifyKind ct = "other" →
      (upload_asset env pid (some ct) fname).response
          = .error (HttpError.mk 400 "Only video/audio/image files are supported")
        ∧ (upload_asset env pid (some ct) fname).createdAssets = [])
  ∧ (∀ ct, pyStartsWith ct "video/" = true → classifyKind ct = "video")
  ∧ (∀ ct, pyStartsWith ct "video/" = false → pyStartsWith ct "audio/" = true →
      classifyKind ct = "audio")
  ∧ (∀ ct, pyStartsWith ct "video/" = false → pyStartsWith ct "audio/" = false →
      pyStartsWith ct "image/" = true → classifyKind ct = "image")
  ∧ ∀ ct, classifyKind ct ≠ "other" →
      (upload_asset env pid (some ct) fname).createdAssets.map AssetDoc.kind
          = [classifyKind ct]
        ∧ (upload_asset env pid (some ct) fname).response.toOption.map AssetDoc.kind
          = some (classifyKind ct) := by
  refine ⟨⟨rfl, rfl⟩, fun ct h => ?_, fun ct h => ?_, fun ct h1 h2 => ?_,
    fun ct h1 h2 h3 => ?_, fun ct h => ?_⟩
  · simp [upload_asset, h]
  · simp [classifyKind, h]
  · simp [classifyKind, h1, h2]
  · simp [classifyKind, h1, h2, h3]
  · simp [upload_asset, h, Except.toOption]

/-- Witness for `c8_upload_kind`: `text/plain` is rejected without an
asset document, and `video/mp4` classifies as video. -/
theorem c8_upload_kind_witness :
    ((upload_asset c8Env "p1" (some "text/plain") "f.txt").response
        = .error (HttpError.mk 400 "Only video/audio/image files are supported")
      ∧ (upload_asset c8Env "p1" (some "text/plain") "f.txt").createdAssets = [])
  ∧ classifyKind "video/mp4" = "video" :=
  ⟨(c8_upload_kind c8Env "p1" "f.txt").2.1 "text/plain" (by decide),
    (c8_upload_kind c8Env "p1" "f.txt").2.2.1 "video/mp4" (by decide)⟩

/-- The asset document persisted when the metadata probe yields nothing:
all three optional media fields are unset. -/
def uploadDocNoProbe (env : UploadEnv) (pid fname : String) : AssetDoc :=
  { project_id := pid, filename := fname, path := uploadSavePath env fname,
    url := env.baseUrl ++ "/static/uploads/" ++ env.timestamp ++ "_" ++ fname,
    kind := "video", duration := none, width := none, height := none }

/-- Claim C9 confirmed: for a video upload whose probe raises (or when
moviepy is unavailable altogether), ingestion still succeeds — the
response is the asset document with `duration`, `width`, `height` all
unset, and exactly that document is persisted; the probe failure never
surfaces to the caller. -/
theorem c9_probe_failure_swallowed (env : UploadEnv) (pid fname ct : String)
    (hv : pyStartsWith ct "video/" = true)
    (hp : env.probe (uploadSavePath env fname) = none) :
    (upload_asset env pid (some ct) fname).response
        = .ok (uploadDocNoProbe env pid fname)
      ∧ (upload_asset env pid (some ct) fname).createdAssets
        = [uploadDocNoProbe env pid fname] := by
  have hk : classifyKind ct = "video" := by simp [classifyKind, hv]
  simp only [uploadSavePath] at hp
  by_cases hA : env.videoFileClipAvailable = true
  · simp [upload_asset, hk, hp, hA, uploadDocNoProbe, uploadSavePath]
  · simp [upload_asset, hk, hp, hA, uploadDocNoProbe, uploadSavePath]

/-- Upload environment whose probe always raises, for the C9 witness. -/
def c9Env : UploadEnv :=
  { videoFileClipAvailable := true, probe := fun _ => none,
    timestamp := "t", baseUrl := "http://h" }

/-- Witness for `c9_probe_failure_swallowed` at a concrete video upload
with a failing probe. -/
theorem c9_probe_failure_swallowed_witness :
    (upload_asset c9Env "p1" (some "video/mp4") "clip.mp4").response
        = .ok (uploadDocNoProbe c9Env "p1" "clip.mp4")
      ∧ (upload_asset c9Env "p1" (some "video/mp4") "clip.mp4").createdAssets
        = [uploadDocNoProbe c9Env "p1" "clip.mp4"] :=
  c9_probe_failure_swallowed c9Env "p1" "clip.mp4" "video/mp4" (by decide) rfl

end VideoEditor
